import Mathlib

/-!
Shallow embedding of `src/lfb_dashboard.py` (LFB streamlit dashboard).

The script loads a flat table of incident rows, derives calendar columns,
filters by a (year, month) selection, and computes KPI scalars and grouped
aggregate tables.  Nullable pandas columns are embedded as `Option ℚ` /
`Option String`; times are rationals (seconds), so every statistic is exact.
Pandas semantics that matter here and are reproduced faithfully:
`NaN <= c` evaluates to `False` inside a boolean comparison, `mean`/`median`/
`quantile` skip NaN, `groupby` drops rows whose key is NaN, and
`pd.cut(..., right=True)` puts a value on the half-open interval
`(lo, hi]` and yields NaN outside the outermost edges.
-/

/-- One row of the loaded dataframe, with the derived columns of the
feature-engineering block (lines 20–36 of the source) already attached:
`Year`, `MonthName`, `CallMonth`, `HourOfCall`, `CallWeekday`. -/
structure Record where
  incidentNumber : String
  year : Int
  monthName : String
  callMonth : Nat
  hourOfCall : Nat
  callWeekday : String
  incidentGroup : String
  borough : String
  firstPump : Option ℚ
  secondPump : Option ℚ
  turnout : Option ℚ
  travel : Option ℚ
  numPumps : ℚ
  delayDesc : Option String
  deriving DecidableEq, Repr

/-- A selector value: `none` stands for the sentinel string "All". -/
def YearSel := Option Int
/-- A selector value: `none` stands for the sentinel string "All". -/
def MonthSel := Option String

/-- The four-branch filter of lines 64–78: both "All" gives a copy of the
table, otherwise equality on `MonthName` and/or `Year`. -/
def filtered_df (df : List Record) (sy : Option Int) (sm : Option String) :
    List Record :=
  match sy, sm with
  | none, none => df
  | none, some m => df.filter (fun r => r.monthName == m)
  | some y, none => df.filter (fun r => r.year == y)
  | some y, some m => df.filter (fun r => r.year == y && r.monthName == m)

/-- The conjunctive predicate the spec describes: one equality test per
non-"All" selector component. -/
def selPred (sy : Option Int) (sm : Option String) (r : Record) : Bool :=
  (match sy with | none => true | some y => r.year == y) &&
  (match sm with | none => true | some m => r.monthName == m)

/-! ## Statistics primitives (pandas semantics, exact rationals) -/

/-- The non-null values of a nullable column (pandas drops NaN before
`mean`/`median`/`quantile`). -/
def seriesVals (f : List Record) (col : Record → Option ℚ) : List ℚ :=
  f.filterMap col

/-- `Series.mean()` over the given values. -/
def meanQ (xs : List ℚ) : ℚ := xs.sum / (xs.length : ℚ)

/-- Ascending sort, as pandas does before an order statistic. -/
def sortQ (xs : List ℚ) : List ℚ := List.insertionSort (· ≤ ·) xs

/-- `Series.quantile(q)` with the default linear interpolation: with sorted
values `v 0 … v (n-1)` and `h = q * (n - 1)`, the result is
`v ⌊h⌋ + (h - ⌊h⌋) * (v (⌊h⌋+1) - v ⌊h⌋)`.  `median()` is `quantile 1/2`. -/
def quantileQ (q : ℚ) (xs : List ℚ) : ℚ :=
  let s := sortQ xs
  let h : ℚ := q * ((s.length : ℚ) - 1)
  let i : Nat := ⌊h⌋.toNat
  let lo := s.getD i 0
  let hi := s.getD (i + 1) lo
  lo + (h - (i : ℚ)) * (hi - lo)

/-! ## KPI block (source lines 100–109)

The percentage KPI compares the raw column with 360; in pandas a NaN
compared with `<= 360` yields `False`, and `.mean()` then runs over every
row.  The order-statistic KPIs call `median`/`mean`/`quantile`, which skip
NaN.  Each time KPI computes over seconds and divides the scalar by 60,
exactly as in the source. -/

/-- The boolean `FirstPumpArriving_AttendanceTime <= 360` of a row
(`False` on NaN, as in pandas). -/
def within6 (r : Record) : Bool :=
  match r.firstPump with
  | some v => decide (v ≤ 360)
  | none => false

def total_incidents (f : List Record) : Nat := f.length

def median_response (f : List Record) : ℚ :=
  quantileQ (1 / 2) (seriesVals f Record.firstPump) / 60

def response_within_6min (f : List Record) : ℚ :=
  ((f.countP within6 : ℚ) / (f.length : ℚ)) * 100

def p90_response (f : List Record) : ℚ :=
  quantileQ (9 / 10) (seriesVals f Record.firstPump) / 60

def avg_response (f : List Record) : ℚ :=
  meanQ (seriesVals f Record.firstPump) / 60

/-! ## `pd.cut` (right-closed binning) -/

/-- A bin edge: a finite rational or `float("inf")`. -/
inductive BinEdge where
  | fin (q : ℚ)
  | inf
  deriving DecidableEq, Repr

/-- `edge < x` (strict lower-edge test; `inf` is below nothing). -/
def BinEdge.ltv : BinEdge → ℚ → Bool
  | .fin b, x => decide (b < x)
  | .inf, _ => false

/-- `x ≤ edge` (inclusive upper-edge test; everything is `≤ inf`). -/
def BinEdge.gev : BinEdge → ℚ → Bool
  | .fin b, x => decide (x ≤ b)
  | .inf, _ => true

/-- Index of the first interval `(bins i, bins (i+1)]` that contains `x`;
`none` when `x` lies outside every interval (pandas NaN). -/
def cutIdx (x : ℚ) : List BinEdge → Option Nat
  | lo :: hi :: rest =>
    if lo.ltv x && hi.gev x then some 0
    else (cutIdx x (hi :: rest)).map (· + 1)
  | _ => none

/-- `pd.cut(x, bins=bins, labels=labels, right=True)` for a single value. -/
def cut (x : ℚ) (bins : List BinEdge) (labels : List String) : Option String :=
  (cutIdx x bins).bind labels.get?

/-- Band configuration of the stacked-bar chart (source lines 590–591). -/
def bins1 : List BinEdge := [.fin 0, .fin 6, .fin 8, .fin 10, .inf]

def labels1 : List String := ["≤ 6 min", "6–8 min", "8–10 min", "> 10 min"]

/-- Band configuration of the second distribution chart (source lines
723–724): note the finite top edge 20, not infinity. -/
def bins2 : List BinEdge := [.fin 0, .fin 4, .fin 6, .fin 8, .fin 20]

def labels2 : List String := ["<4 min", "4–6 min", "6–8 min", ">8 min"]

/-- `ResponseBand` of a row: `ResponseMinutes = FirstPump/60` cut against
the first configuration (source lines 580–598); NaN in, NaN out. -/
def bandOf (r : Record) : Option String :=
  r.firstPump.bind (fun s => cut (s / 60) bins1 labels1)

/-! ## Band composition per incident group (source lines 601–612) -/

/-- `Count` of one `(IncidentGroup, ResponseBand)` cell of `band_counts`
(rows with NaN band are dropped by `groupby`). -/
def bandCount (f : List Record) (g b : String) : Nat :=
  (f.filter (fun r => r.incidentGroup == g && bandOf r == some b)).length

/-- The within-group total `x.sum()` that `transform` divides by: every
row of the group carrying a non-NaN band. -/
def groupBandedTotal (f : List Record) (g : String) : Nat :=
  (f.filter (fun r => r.incidentGroup == g && (bandOf r).isSome)).length

/-- `Percent` of one `(IncidentGroup, ResponseBand)` cell:
`100 * x / x.sum()` within the group. -/
def bandPercent (f : List Record) (g b : String) : ℚ :=
  100 * (bandCount f g b : ℚ) / (groupBandedTotal f g : ℚ)

/-- The sum of a group's band percentages over the four configured bands. -/
def bandPercentSum (f : List Record) (g : String) : ℚ :=
  (labels1.map (bandPercent f g)).sum

/-! ## Extreme-delay Pareto (source lines 880–906) -/

/-- `extreme_df = filtered_df[filtered_df["ResponseMinutes"] > 10]`
(NaN compares false, so null attendance rows drop out). -/
def extreme_df (f : List Record) : List Record :=
  f.filter (fun r =>
    match r.firstPump with
    | some s => decide (10 < s / 60)
    | none => false)

/-- Distinct delay-code descriptions of a record list; `groupby` drops the
NaN descriptions.  (The source then sorts by count, an order in which key
order matters only for ties, which the source leaves unspecified.) -/
def delayKeys (e : List Record) : List String :=
  (e.filterMap Record.delayDesc).dedup

/-- `.size()` of one delay-description group. -/
def delaySize (e : List Record) (d : String) : Nat :=
  e.countP (fun r => r.delayDesc == some d)

/-- `delay_counts` after `.sort_values("IncidentCount", ascending=False)`:
the (description, count) pairs in descending count order. -/
def delay_counts_sorted (e : List Record) : List (String × Nat) :=
  List.insertionSort (fun a b => b.2 ≤ a.2)
    ((delayKeys e).map (fun d => (d, delaySize e d)))

/-- One output row of the Pareto table. -/
structure ParetoRow where
  dsc : String
  count : Nat
  percent : ℚ
  cum : ℚ
  deriving DecidableEq, Repr

/-- Attach `Percent = IncidentCount / total * 100` and its running
`cumsum()` to the sorted counts. -/
def paretoRows (total : ℚ) : ℚ → List (String × Nat) → List ParetoRow
  | _, [] => []
  | acc, (d, c) :: rest =>
    let p := (c : ℚ) / total * 100
    ⟨d, c, p, acc + p⟩ :: paretoRows total (acc + p) rest

/-- `total_extreme = delay_counts_extreme["IncidentCount"].sum()`. -/
def total_extreme (e : List Record) : Nat :=
  ((delay_counts_sorted e).map (·.2)).sum

/-- The full Pareto table `delay_counts_extreme` computed from the
extreme subset. -/
def delay_counts_extreme (e : List Record) : List ParetoRow :=
  paretoRows (total_extreme e : ℚ) 0 (delay_counts_sorted e)

/-! ## Monthly unique-incident counts (source lines 144–166) -/

/-- `Series.nunique()`: number of distinct values. -/
def nunique (xs : List String) : Nat := xs.dedup.length

/-- `groupby(["CallMonth","IncidentGroup"])["IncidentNumber"].nunique()`
at one key. -/
def monthly_incidents_by_type (f : List Record) (m : Nat) (g : String) : Nat :=
  nunique ((f.filter (fun r => r.callMonth == m && r.incidentGroup == g)).map
    Record.incidentNumber)

/-- `groupby("CallMonth")["IncidentNumber"].nunique()` at one month; this
is the row labelled "All Incidents". -/
def monthly_incidents_total (f : List Record) (m : Nat) : Nat :=
  nunique ((f.filter (fun r => r.callMonth == m)).map Record.incidentNumber)

/-- Plain row count at a (month, group) key, for comparison with the
unique count. -/
def monthlyRowCount (f : List Record) (m : Nat) (g : String) : Nat :=
  (f.filter (fun r => r.callMonth == m && r.incidentGroup == g)).length

/-- Plain row count at a month key. -/
def monthRowCount (f : List Record) (m : Nat) : Nat :=
  (f.filter (fun r => r.callMonth == m)).length

/-! ## Hour × weekday heatmap (source lines 251–268) -/

def weekday_order : List String :=
  ["Monday", "Tuesday", "Wednesday", "Thursday", "Friday", "Saturday", "Sunday"]

/-- One cell of the pivot table after the two `reindex` calls: `nunique`
of incident numbers at the (hour, weekday) key when any row matches,
and NaN (`none`) when none does — `pivot_table` emits no cell and
`reindex` fills the hole with NaN, not 0. -/
def heatCell (f : List Record) (h : Nat) (w : String) : Option Nat :=
  let cell := f.filter (fun r => r.hourOfCall == h && r.callWeekday == w)
  if cell.isEmpty then none
  else some (nunique (cell.map Record.incidentNumber))

/-- `daily_hourly_incidents` after reindexing: 24 rows (hours 0–23), each
with the 7 weekdays Monday → Sunday in fixed order. -/
def daily_hourly_incidents (f : List Record) : List (List (Option Nat)) :=
  (List.range 24).map (fun h => weekday_order.map (fun w => heatCell f h w))

/-! ## Turnout vs travel decomposition (source lines 807–830) -/

/-- `.mean()` of a column, `None` when every value is NaN (pandas NaN). -/
def meanOpt (xs : List ℚ) : Option ℚ :=
  if xs.isEmpty then none else some (xs.sum / (xs.length : ℚ))

/-- The rows of one incident group. -/
def groupRows (f : List Record) (g : String) : List Record :=
  f.filter (fun r => r.incidentGroup == g)

/-- `TurnoutTimeSeconds` group mean, divided by 60 (`.mean().div(60)`). -/
def turnoutMeanMin (f : List Record) (g : String) : Option ℚ :=
  (meanOpt (seriesVals (groupRows f g) Record.turnout)).map (· / 60)

/-- `TravelTimeSeconds` group mean, divided by 60. -/
def travelMeanMin (f : List Record) (g : String) : Option ℚ :=
  (meanOpt (seriesVals (groupRows f g) Record.travel)).map (· / 60)

/-- `TotalMinutes = TurnoutTimeSeconds + TravelTimeSeconds` (the already
divided columns; NaN propagates). -/
def totalMinutes (f : List Record) (g : String) : Option ℚ :=
  match turnoutMeanMin f g, travelMeanMin f g with
  | some a, some b => some (a + b)
  | _, _ => none

/-- `TurnoutPercent = TurnoutTimeSeconds / TotalMinutes * 100`. -/
def turnoutPercent (f : List Record) (g : String) : Option ℚ :=
  match turnoutMeanMin f g, totalMinutes f g with
  | some a, some t => some (a / t * 100)
  | _, _ => none

/-- `TravelPercent = TravelTimeSeconds / TotalMinutes * 100`. -/
def travelPercent (f : List Record) (g : String) : Option ℚ :=
  match travelMeanMin f g, totalMinutes f g with
  | some a, some t => some (a / t * 100)
  | _, _ => none

/-! ## Script control flow

The script is linear.  `st.stop()` aborts the whole run: it is called
once when the filtered frame is empty (line 82) and once when the
extreme-delay Pareto table is empty (line 896).  The tab block of lines
1003–1044 comes after the Pareto section, so a `st.stop()` in either
guard prevents it from rendering. -/

/-- Which outputs a run of the script produced. -/
structure ScriptRun where
  noDataWarning : Bool
  kpisShown : Bool
  chartsShown : Bool
  noExtremeWarning : Bool
  paretoShown : Bool
  tabsShown : Bool
  deriving DecidableEq, Repr

/-- One top-to-bottom execution of the script for a loaded table and a
filter selection, recording which sections rendered before a
`st.stop()` (if any) halted it. -/
def runScript (df : List Record) (sy : Option Int) (sm : Option String) :
    ScriptRun :=
  let f := filtered_df df sy sm
  if f.isEmpty then
    { noDataWarning := true, kpisShown := false, chartsShown := false,
      noExtremeWarning := false, paretoShown := false, tabsShown := false }
  else if (delay_counts_extreme (extreme_df f)).isEmpty then
    { noDataWarning := false, kpisShown := true, chartsShown := true,
      noExtremeWarning := true, paretoShown := false, tabsShown := false }
  else
    { noDataWarning := false, kpisShown := true, chartsShown := true,
      noExtremeWarning := false, paretoShown := true, tabsShown := true }

/-! ## Concrete fixtures for witnesses and counterexamples -/

/-- A record with the fields the examples vary; the rest fixed. -/
def mkRec (id g : String) (m : Nat) (att : Option ℚ) (d : Option String) :
    Record :=
  { incidentNumber := id, year := 2021, monthName := "January",
    callMonth := m, hourOfCall := 0, callWeekday := "Monday",
    incidentGroup := g, borough := "Camden", firstPump := att,
    secondPump := none, turnout := none, travel := none,
    numPumps := 1, delayDesc := d }

/-- One fast Fire record (hour 0, Monday, January 2021, no delay code). -/
def exOne : List Record := [mkRec "A" "Fire" 1 (some 300) none]

/-- The Pareto example of the spec: three extreme records, delay
descriptions Traffic, Traffic, Weather, all above 10 minutes. -/
def exC6 : List Record :=
  [mkRec "A" "Fire" 1 (some 700) (some "Traffic"),
   mkRec "B" "Fire" 1 (some 661) (some "Traffic"),
   mkRec "C" "Fire" 1 (some 800) (some "Weather")]

/-- The monthly-series example of the spec: two rows sharing incident
"A" (Fire) plus one row of incident "B" (False Alarm), all in month 1. -/
def exC7 : List Record :=
  [mkRec "A" "Fire" 1 (some 200) none,
   mkRec "A" "Fire" 1 (some 200) none,
   mkRec "B" "False Alarm" 1 (some 400) none]

/-- A Fire group whose only record has a null first-pump attendance. -/
def exNullFire : List Record := [mkRec "A" "Fire" 1 none none]

/-- A null-attendance record next to a fast one. -/
def exNullTen : List Record :=
  [mkRec "A" "Fire" 1 none none, mkRec "B" "Fire" 1 (some 300) none]

/-- A Fire record with one minute of turnout and two minutes of travel. -/
def exTT : List Record :=
  [{ mkRec "A" "Fire" 1 (some 300) none with
      turnout := some 60, travel := some 120 }]

/-- Running sums of a list from a start value — the spec's description of
`cumsum()`: each cumulative percent is the running sum of the percents in
ranking order.  Stated separately from `paretoRows` so the code's output
can be compared against it. -/
def runningSums (acc : ℚ) : List ℚ → List ℚ
  | [] => []
  | p :: rest => (acc + p) :: runningSums (acc + p) rest

instance : IsTotal (String × Nat) (fun a b => b.2 ≤ a.2) :=
  ⟨fun a b => Nat.le_total b.2 a.2⟩

instance : IsTrans (String × Nat) (fun a b => b.2 ≤ a.2) :=
  ⟨fun _ _ _ hab hbc => le_trans hbc hab⟩

/-! ## General lemmas about the embedded operations -/

theorem filtered_df_eq_filter (df : List Record) (sy : Option Int)
    (sm : Option String) :
    filtered_df df sy sm = df.filter (selPred sy sm) := by
  cases sy <;> cases sm
  · exact (List.filter_true df).symm
  · rfl
  · exact List.filter_congr fun r _ => (Bool.and_true _).symm
  · rfl

/-- A label produced by `cut` is one of the configured labels. -/
theorem cut_label_mem {x : ℚ} {bins : List BinEdge} {labels : List String}
    {b : String} (h : cut x bins labels = some b) : b ∈ labels := by
  unfold cut at h
  cases hc : cutIdx x bins with
  | none => rw [hc] at h; exact absurd h (by simp)
  | some i =>
    rw [hc] at h
    simp only [Option.some_bind] at h
    exact List.get?_mem h

/-- A band assigned to a record is one of the four configured bands. -/
theorem bandOf_mem {r : Record} {b : String} (h : bandOf r = some b) :
    b ∈ labels1 := by
  unfold bandOf at h
  cases hp : r.firstPump with
  | none => rw [hp] at h; exact absurd h (by simp)
  | some s =>
    rw [hp] at h
    exact cut_label_mem (by simpa using h)

/-- The four band counts of a group partition its banded rows: their sum
is the group's `x.sum()` denominator. -/
theorem bandCount_sum_eq (f : List Record) (g : String) :
    (labels1.map (fun b => bandCount f g b)).sum = groupBandedTotal f g := by
  induction f with
  | nil => rfl
  | cons r t ih =>
    by_cases hg : (r.incidentGroup == g) = true
    · cases hb : bandOf r with
      | none =>
        simp [labels1, bandCount, groupBandedTotal, List.filter_cons,
          hb, hg] at ih ⊢
        omega
      | some b0 =>
        have hmem : b0 ∈ labels1 := bandOf_mem hb
        simp only [labels1, List.mem_cons, List.not_mem_nil, or_false] at hmem
        rcases hmem with rfl | rfl | rfl | rfl <;>
          (simp [labels1, bandCount, groupBandedTotal, List.filter_cons,
            hb, hg] at ih ⊢ ; omega)
    · have hg2 : (r.incidentGroup == g) = false := by
        exact Bool.not_eq_true _ ▸ (by simpa using hg)
      simp [labels1, bandCount, groupBandedTotal, List.filter_cons,
        hg2] at ih ⊢
      omega

/-! ## C1 — filter -/

/-- C1: applying the filter keeps exactly the records satisfying the
conjunction of one equality predicate per non-"All" selector (and keeps
every record when both selectors are "All"); an empty filter result is a
terminal state — the script warns and stops, so no KPI or chart
computation runs on it. -/
theorem c1_filter_conjunction_terminal (df : List Record) (sy : Option Int)
    (sm : Option String) :
    (∀ r, r ∈ filtered_df df sy sm ↔ (r ∈ df ∧ selPred sy sm r = true)) ∧
    filtered_df df none none = df ∧
    (filtered_df df sy sm = [] →
      runScript df sy sm =
        { noDataWarning := true, kpisShown := false, chartsShown := false,
          noExtremeWarning := false, paretoShown := false,
          tabsShown := false }) := by
  refine ⟨fun r => ?_, rfl, fun he => ?_⟩
  · rw [filtered_df_eq_filter]
    exact List.mem_filter
  · unfold runScript
    simp [he]

/-- C1 witness: concrete membership instance, and a selection (year 1999)
matching no record, on which the script stops before any KPI. -/
theorem c1_filter_conjunction_terminal_witness :
    (mkRec "A" "Fire" 1 (some 300) none ∈ filtered_df exOne none none ↔
      (mkRec "A" "Fire" 1 (some 300) none ∈ exOne ∧
        selPred none none (mkRec "A" "Fire" 1 (some 300) none) = true)) ∧
    runScript exOne (some 1999) none =
      { noDataWarning := true, kpisShown := false, chartsShown := false,
        noExtremeWarning := false, paretoShown := false,
        tabsShown := false } :=
  ⟨(c1_filter_conjunction_terminal exOne none none).1 _,
   (c1_filter_conjunction_terminal exOne (some 1999) none).2.2 (by decide)⟩

/-! ## C2 — empty extreme-delay subset -/

/-- C2 counterexample: a table whose filtered set is non-empty while the
extreme-delay table is empty.  The script does emit the distinct
extreme-empty warning, but its `st.stop()` also suppresses the tab
section that follows the Pareto block — the claim says sibling sections
after the signal still render. -/
theorem c2_extreme_stop_counterexample :
    filtered_df exOne none none ≠ [] ∧
    delay_counts_extreme (extreme_df (filtered_df exOne none none)) = [] ∧
    (runScript exOne none none).noExtremeWarning = true ∧
    (runScript exOne none none).noDataWarning = false ∧
    (runScript exOne none none).tabsShown = false := by
  have hext : delay_counts_extreme (extreme_df (filtered_df exOne none none)) =
      [] := by
    norm_num [delay_counts_extreme, extreme_df, filtered_df, exOne, mkRec,
      delay_counts_sorted, delayKeys, paretoRows]
  have hrun : runScript exOne none none =
      { noDataWarning := false, kpisShown := true, chartsShown := true,
        noExtremeWarning := true, paretoShown := false, tabsShown := false } := by
    have h1 : (filtered_df exOne none none).isEmpty = false := by decide
    simp only [runScript]
    rw [h1, hext]
    simp
  exact ⟨by decide, hext, by rw [hrun], by rw [hrun], by rw [hrun]⟩

/-- C2 amended: when the filtered set is non-empty and the extreme-delay
table is empty, the script emits the extreme-specific warning (distinct
from the filter-empty warning, which stays off), keeps every section
already rendered before the Pareto block, and then halts: the Pareto
chart and the tab section after it are both suppressed. -/
theorem c2_extreme_empty_halts_rest (df : List Record) (sy : Option Int)
    (sm : Option String) (hne : filtered_df df sy sm ≠ [])
    (hext : delay_counts_extreme (extreme_df (filtered_df df sy sm)) = []) :
    runScript df sy sm =
      { noDataWarning := false, kpisShown := true, chartsShown := true,
        noExtremeWarning := true, paretoShown := false,
        tabsShown := false } := by
  unfold runScript
  simp [hext, hne]

/-- C2 witness for the amended statement. -/
theorem c2_extreme_empty_halts_rest_witness :
    runScript exOne none none =
      { noDataWarning := false, kpisShown := true, chartsShown := true,
        noExtremeWarning := true, paretoShown := false,
        tabsShown := false } :=
  c2_extreme_empty_halts_rest exOne none none (by decide)
    (by norm_num [delay_counts_extreme, extreme_df, filtered_df, exOne, mkRec,
      delay_counts_sorted, delayKeys, paretoRows])

/-! ## C3 — hour × weekday matrix -/

/-- C3 counterexample: the single record sits at hour 0 on Monday, so the
cell (hour 1, Monday) matches no incident; `pivot_table` plus `reindex`
leaves that cell as NaN (`none`), not the count 0 that the claim
states. -/
theorem c3_zero_cell_counterexample :
    exOne.all (fun r => !(r.hourOfCall == 1 && r.callWeekday == "Monday")) =
      true ∧
    heatCell exOne 1 "Monday" = none ∧
    ((daily_hourly_incidents exOne).getD 1 []).getD 0 none ≠ some 0 := by
  decide

/-- C3 amended: the matrix is always fully dense — 24 hour rows of 7
weekday cells in the fixed Monday-to-Sunday order — and a cell with no
matching incident holds the blank marker NaN (`none`), never being
omitted (but not the number 0). -/
theorem c3_dense_matrix_blank_cells (f : List Record) (h i : Nat)
    (hh : h < 24) (hi : i < 7)
    (hno : ∀ r ∈ f,
      ¬(r.hourOfCall = h ∧ r.callWeekday = weekday_order.getD i "")) :
    (daily_hourly_incidents f).length = 24 ∧
    (∀ row ∈ daily_hourly_incidents f, row.length = 7) ∧
    ((daily_hourly_incidents f).getD h []).getD i none =
      heatCell f h (weekday_order.getD i "") ∧
    heatCell f h (weekday_order.getD i "") = none := by
  have hw : i < weekday_order.length := by
    simpa [weekday_order] using hi
  refine ⟨by simp [daily_hourly_incidents], ?_, ?_, ?_⟩
  · intro row hrow
    simp only [daily_hourly_incidents, List.mem_map] at hrow
    obtain ⟨a, _, rfl⟩ := hrow
    simp [weekday_order]
  · have h1 : h < (daily_hourly_incidents f).length := by
      simpa [daily_hourly_incidents] using hh
    rw [List.getD_eq_getElem _ _ h1]
    have h2 : ((daily_hourly_incidents f)[h]).length = weekday_order.length := by
      simp [daily_hourly_incidents]
    rw [List.getD_eq_getElem _ _ (by rw [h2]; exact hw)]
    simp only [daily_hourly_incidents, List.getElem_map, List.getElem_range]
    rw [List.getD_eq_getElem _ _ hw]
  · have hfil : f.filter
        (fun r => r.hourOfCall == h &&
          r.callWeekday == weekday_order.getD i "") = [] := by
      rw [List.filter_eq_nil_iff]
      intro r hr
      simp only [Bool.and_eq_true, beq_iff_eq, not_and]
      exact fun h1 h2 => hno r hr ⟨h1, h2⟩
    simp only [heatCell]
    rw [hfil]
    simp

/-- C3 witness for the amended statement, at the empty cell
(hour 1, Monday) of the one-record table. -/
theorem c3_dense_matrix_blank_cells_witness :
    (daily_hourly_incidents exOne).length = 24 ∧
    ((daily_hourly_incidents exOne).getD 1 []).getD 0 none =
      heatCell exOne 1 (weekday_order.getD 0 "") ∧
    heatCell exOne 1 (weekday_order.getD 0 "") = none :=
  let h := c3_dense_matrix_blank_cells exOne 1 0 (by decide) (by decide)
    (by decide)
  ⟨h.1, h.2.2.1, h.2.2.2⟩

/-! ## C4 — response-time bands -/

/-- C4 counterexample: the second banding (cut points 4, 6, 8) has a
finite top edge at 20, so a 25-minute response falls in no band at all
(NaN), not in the ">8 min" band the claim calls unbounded above. -/
theorem c4_capped_band_counterexample :
    (8 : ℚ) < 25 ∧
    cut 25 bins2 labels2 = none ∧
    cut 25 bins2 labels2 ≠ some ">8 min" := by
  refine ⟨by norm_num, by decide, by decide⟩

/-- C4 amended: band assignment is right-closed in both configurations —
6 minutes lands in "≤ 6 min", and every interior cut point lands in the
band it closes.  In the 6/8/10 configuration every time above 10 falls
in the unbounded "> 10 min" band; in the 4/6/8 configuration the top
band ">8 min" is capped at 20 — it collects the times in (8, 20], and
times above 20 fall in no band. -/
theorem c4_right_closed_bands (x : ℚ) :
    cut 6 bins1 labels1 = some "≤ 6 min" ∧
    cut 8 bins1 labels1 = some "6–8 min" ∧
    cut 10 bins1 labels1 = some "8–10 min" ∧
    cut 4 bins2 labels2 = some "<4 min" ∧
    cut 6 bins2 labels2 = some "4–6 min" ∧
    cut 8 bins2 labels2 = some "6–8 min" ∧
    (10 < x → cut x bins1 labels1 = some "> 10 min") ∧
    (8 < x → x ≤ 20 → cut x bins2 labels2 = some ">8 min") ∧
    (20 < x → cut x bins2 labels2 = none) := by
  refine ⟨by decide, by decide, by decide, by decide, by decide, by decide,
    ?_, ?_, ?_⟩
  · intro hx
    have h0 : (0 : ℚ) < x := by linarith
    have h6 : ¬x ≤ 6 := by linarith
    have h8 : ¬x ≤ 8 := by linarith
    have h10 : ¬x ≤ 10 := by linarith
    have h6l : (6 : ℚ) < x := by linarith
    have h8l : (8 : ℚ) < x := by linarith
    simp [cut, cutIdx, BinEdge.ltv, BinEdge.gev, bins1, labels1,
      h0, h6, h8, h10, hx, h6l, h8l]
  · intro hx h20
    have h0 : (0 : ℚ) < x := by linarith
    have h4 : ¬x ≤ 4 := by linarith
    have h6 : ¬x ≤ 6 := by linarith
    have h8 : ¬x ≤ 8 := by linarith
    have h4l : (4 : ℚ) < x := by linarith
    have h6l : (6 : ℚ) < x := by linarith
    simp [cut, cutIdx, BinEdge.ltv, BinEdge.gev, bins2, labels2,
      h0, h4, h6, h8, hx, h20, h4l, h6l]
  · intro hx
    have h0 : (0 : ℚ) < x := by linarith
    have h4 : ¬x ≤ 4 := by linarith
    have h6 : ¬x ≤ 6 := by linarith
    have h8 : ¬x ≤ 8 := by linarith
    have h20 : ¬x ≤ 20 := by linarith
    simp [cut, cutIdx, BinEdge.ltv, BinEdge.gev, bins2, labels2,
      h0, h4, h6, h8, h20]

/-- C4 witness: each conditional branch of the band theorem at a concrete
time — 11 minutes in the first configuration, 15 and 25 minutes in the
second. -/
theorem c4_right_closed_bands_witness :
    cut 11 bins1 labels1 = some "> 10 min" ∧
    cut 15 bins2 labels2 = some ">8 min" ∧
    cut 25 bins2 labels2 = none :=
  ⟨(c4_right_closed_bands 11).2.2.2.2.2.2.1 (by norm_num),
   (c4_right_closed_bands 15).2.2.2.2.2.2.2.1 (by norm_num) (by norm_num),
   (c4_right_closed_bands 25).2.2.2.2.2.2.2.2 (by norm_num)⟩

/-! ## C5 — band percentages sum to 100 within a group -/

/-- C5 counterexample: a Fire group whose single record has a null
attendance time is present in the non-empty filtered set, yet it
contributes no row to `band_counts` (its band is NaN), so its band
percentages sum to 0, not 100. -/
theorem c5_null_group_counterexample :
    exNullFire ≠ [] ∧
    exNullFire.any (fun r => r.incidentGroup == "Fire") = true ∧
    bandPercentSum exNullFire "Fire" = 0 ∧
    (0 : ℚ) ≠ 100 := by
  refine ⟨by decide, by decide, ?_, by norm_num⟩
  norm_num [bandPercentSum, bandPercent, bandCount, groupBandedTotal,
    labels1, exNullFire, mkRec, bandOf]

/-- C5 amended: for every incident group with at least one banded row —
one record whose response band is defined — the response-time-band
percentages computed within that group sum to exactly 100; groups whose
records all lack a band produce no percentages at all. -/
theorem c5_band_percent_sum_100 (f : List Record) (g : String)
    (h : 0 < groupBandedTotal f g) :
    bandPercentSum f g = 100 := by
  have hsum := bandCount_sum_eq f g
  have hT : ((groupBandedTotal f g : ℚ)) ≠ 0 := by
    exact_mod_cast Nat.pos_iff_ne_zero.mp h
  unfold bandPercentSum bandPercent
  simp only [labels1, List.map_cons, List.map_nil, List.sum_cons,
    List.sum_nil]
  simp only [labels1, List.map_cons, List.map_nil, List.sum_cons,
    List.sum_nil] at hsum
  have hq : (bandCount f g "≤ 6 min" : ℚ) +
      ((bandCount f g "6–8 min" : ℚ) + ((bandCount f g "8–10 min" : ℚ) +
        ((bandCount f g "> 10 min" : ℚ) + 0))) =
      (groupBandedTotal f g : ℚ) := by
    exact_mod_cast hsum
  field_simp
  linear_combination (100 : ℚ) * hq

/-- C5 witness: the Fire group of the three-record example has two banded
rows and its percentages sum to 100. -/
theorem c5_band_percent_sum_100_witness :
    bandPercentSum exC7 "Fire" = 100 :=
  c5_band_percent_sum_100 exC7 "Fire" (by
    norm_num [groupBandedTotal, exC7, mkRec, bandOf, cut, cutIdx,
      BinEdge.ltv, BinEdge.gev, bins1, labels1, List.filter_cons])

/-! ## C6 — extreme-delay Pareto -/

/-- The counts column of the Pareto rows is the counts column of the
sorted input. -/
theorem paretoRows_map_count (t acc : ℚ) (l : List (String × Nat)) :
    (paretoRows t acc l).map ParetoRow.count = l.map Prod.snd := by
  induction l generalizing acc with
  | nil => rfl
  | cons p rest ih => simp [paretoRows, ih]

/-- Every Pareto row's percent is its count as a share of the total. -/
theorem paretoRows_percent (t acc : ℚ) (l : List (String × Nat)) :
    (paretoRows t acc l).map ParetoRow.percent =
      (paretoRows t acc l).map (fun row => (row.count : ℚ) / t * 100) := by
  induction l generalizing acc with
  | nil => rfl
  | cons p rest ih => simp [paretoRows, ih]

/-- The cumulative column is the running sum of the percent column. -/
theorem paretoRows_cum (t acc : ℚ) (l : List (String × Nat)) :
    (paretoRows t acc l).map ParetoRow.cum =
      runningSums acc ((paretoRows t acc l).map ParetoRow.percent) := by
  induction l generalizing acc with
  | nil => rfl
  | cons p rest ih => simp [paretoRows, runningSums, ih]

/-- C6: over the records above 10 minutes, the Pareto table ranks delay
descriptions by descending count; each percent is the count's share of
the extreme total and each cumulative percent is the running sum of the
percents in ranking order.  On the spec's example (Traffic, Traffic,
Weather, all extreme) it yields Traffic (2, 200/3 % ≈ 66.7, cumulative
200/3) then Weather (1, 100/3 % ≈ 33.3, cumulative exactly 100), and the
final cumulative percent is 100. -/
theorem c6_pareto_ranking (e : List Record) :
    List.Pairwise (fun a b : ParetoRow => b.count ≤ a.count)
      (delay_counts_extreme e) ∧
    (delay_counts_extreme e).map ParetoRow.percent =
      (delay_counts_extreme e).map
        (fun row => (row.count : ℚ) / (total_extreme e : ℚ) * 100) ∧
    (delay_counts_extreme e).map ParetoRow.cum =
      runningSums 0 ((delay_counts_extreme e).map ParetoRow.percent) ∧
    delay_counts_extreme (extreme_df (filtered_df exC6 none none)) =
      [⟨"Traffic", 2, 200 / 3, 200 / 3⟩, ⟨"Weather", 1, 100 / 3, 100⟩] ∧
    round ((200 : ℚ) / 3 * 10) = 667 ∧
    round ((100 : ℚ) / 3 * 10) = 333 ∧
    ((delay_counts_extreme (extreme_df (filtered_df exC6 none none))).map
      ParetoRow.cum).getLast? = some 100 := by
  have hconc : delay_counts_extreme (extreme_df (filtered_df exC6 none none)) =
      [⟨"Traffic", 2, 200 / 3, 200 / 3⟩, ⟨"Weather", 1, 100 / 3, 100⟩] := by
    have h1 : (("Weather" : String) == "Traffic") = false := by decide
    have h2 : (("Traffic" : String) == "Weather") = false := by decide
    norm_num [delay_counts_extreme, extreme_df, filtered_df, exC6, mkRec,
      delay_counts_sorted, delayKeys, delaySize, total_extreme, paretoRows,
      List.insertionSort, List.orderedInsert, List.dedup, List.filterMap,
      List.countP, List.countP.go, h1, h2]
  refine ⟨?_, paretoRows_percent _ _ _, paretoRows_cum _ _ _, hconc,
    by norm_num [round_eq], by norm_num [round_eq], by rw [hconc]; rfl⟩
  have hs : List.Pairwise (fun a b : String × Nat => b.2 ≤ a.2)
      (delay_counts_sorted e) := List.sorted_insertionSort _ _
  have hmap := paretoRows_map_count (total_extreme e : ℚ) 0
    (delay_counts_sorted e)
  have hp : List.Pairwise (fun x y : ℕ => y ≤ x)
      ((delay_counts_extreme e).map ParetoRow.count) := by
    rw [delay_counts_extreme, hmap, List.pairwise_map]
    exact hs
  exact (List.pairwise_map).mp hp

/-! ## C7 — unique-incident counts -/

/-- `nunique` never exceeds the number of rows it is computed from. -/
theorem nunique_le_length (xs : List String) : nunique xs ≤ xs.length :=
  List.Sublist.length_le (List.dedup_sublist xs)

/-- C7: every (month, group) cell of the monthly series counts distinct
incident identifiers, which is at most the row count of that cell, and
the per-month "All Incidents" value counts distinct identifiers across
the groups; on the spec's example (rows A, A, B) the counts are
Fire = 1, False Alarm = 1 and All Incidents = 2, not 3. -/
theorem c7_unique_counts (f : List Record) (m : Nat) (g : String) :
    monthly_incidents_by_type f m g ≤ monthlyRowCount f m g ∧
    monthly_incidents_total f m ≤ monthRowCount f m ∧
    monthly_incidents_by_type exC7 1 "Fire" = 1 ∧
    monthly_incidents_by_type exC7 1 "False Alarm" = 1 ∧
    monthly_incidents_total exC7 1 = 2 := by
  refine ⟨?_, ?_, by decide, by decide, by decide⟩
  · calc monthly_incidents_by_type f m g
        ≤ ((f.filter (fun r => r.callMonth == m && r.incidentGroup == g)).map
            Record.incidentNumber).length := nunique_le_length _
      _ = monthlyRowCount f m g := by
          simp [monthlyRowCount]
  · calc monthly_incidents_total f m
        ≤ ((f.filter (fun r => r.callMonth == m)).map
            Record.incidentNumber).length := nunique_le_length _
      _ = monthRowCount f m := by
          simp [monthRowCount]

/-! ## C8 — seconds-to-minutes conversion commutes with the statistics -/

/-- Summation commutes with division by 60. -/
theorem sum_map_div60 (xs : List ℚ) :
    (xs.map (fun v => v / 60)).sum = xs.sum / 60 := by
  induction xs with
  | nil => simp
  | cons a t ih => simp [ih, add_div]

/-- Sorting commutes with division by 60 (a monotone rescaling). -/
theorem sortQ_map_div60 (xs : List ℚ) :
    sortQ (xs.map (fun v => v / 60)) = (sortQ xs).map (fun v => v / 60) := by
  apply List.eq_of_perm_of_sorted (r := (· ≤ ·))
  · exact (List.perm_insertionSort _ _).trans
      ((List.perm_insertionSort (· ≤ ·) xs).map _).symm
  · exact List.sorted_insertionSort _ _
  · rw [List.Sorted, List.pairwise_map]
    exact (List.sorted_insertionSort _ xs).imp (fun hab => by linarith)

/-- Indexing with a rescaled default commutes with division by 60. -/
theorem getD_map_div60 (l : List ℚ) (i : Nat) (d : ℚ) :
    (l.map (fun v => v / 60)).getD i (d / 60) = l.getD i d / 60 := by
  induction l generalizing i with
  | nil => simp [List.getD]
  | cons a t ih =>
    cases i with
    | zero => simp
    | succ n => simp [ih n]

/-- The linear-interpolation quantile commutes with division by 60. -/
theorem quantileQ_map_div60 (q : ℚ) (xs : List ℚ) :
    quantileQ q (xs.map (fun v => v / 60)) = quantileQ q xs / 60 := by
  simp only [quantileQ]
  rw [sortQ_map_div60, List.length_map]
  have hlo : ((sortQ xs).map (fun v => v / 60)).getD
      (⌊q * (((sortQ xs).length : ℚ) - 1)⌋.toNat) 0 =
      (sortQ xs).getD (⌊q * (((sortQ xs).length : ℚ) - 1)⌋.toNat) 0 / 60 := by
    have h0 : (0 : ℚ) = 0 / 60 := by norm_num
    rw [h0, getD_map_div60]
    norm_num
  rw [hlo, getD_map_div60]
  ring

/-- C8: for a non-empty record set, dividing every first-pump attendance
value by 60 before taking the median, mean or 90th percentile gives
exactly the KPI the source computes by taking the statistic over seconds
and dividing the scalar by 60 — the two strategies agree. -/
theorem c8_minutes_scaling (f : List Record) (_hne : f ≠ []) :
    meanQ ((seriesVals f Record.firstPump).map (fun v => v / 60)) =
      avg_response f ∧
    quantileQ (1 / 2) ((seriesVals f Record.firstPump).map (fun v => v / 60)) =
      median_response f ∧
    quantileQ (9 / 10) ((seriesVals f Record.firstPump).map (fun v => v / 60)) =
      p90_response f := by
  refine ⟨?_, quantileQ_map_div60 _ _, quantileQ_map_div60 _ _⟩
  simp only [meanQ, avg_response]
  rw [sum_map_div60, List.length_map]
  ring

/-- C8 witness at the three-record example. -/
theorem c8_minutes_scaling_witness :
    meanQ ((seriesVals exC7 Record.firstPump).map (fun v => v / 60)) =
      avg_response exC7 ∧
    quantileQ (1 / 2) ((seriesVals exC7 Record.firstPump).map
      (fun v => v / 60)) = median_response exC7 ∧
    quantileQ (9 / 10) ((seriesVals exC7 Record.firstPump).map
      (fun v => v / 60)) = p90_response exC7 :=
  c8_minutes_scaling exC7 (by decide)

/-! ## C9 — turnout/travel decomposition -/

/-- C9: whenever a group's mean turnout and mean travel minutes are both
defined with a positive total, the decomposition's two percentages are
defined and sum to exactly 100. -/
theorem c9_turnout_travel_sum_100 (f : List Record) (g : String) (tu tr : ℚ)
    (h1 : turnoutMeanMin f g = some tu) (h2 : travelMeanMin f g = some tr)
    (h3 : 0 < tu + tr) :
    turnoutPercent f g = some (tu / (tu + tr) * 100) ∧
    travelPercent f g = some (tr / (tu + tr) * 100) ∧
    tu / (tu + tr) * 100 + tr / (tu + tr) * 100 = 100 := by
  have hne : tu + tr ≠ 0 := ne_of_gt h3
  refine ⟨?_, ?_, ?_⟩
  · simp [turnoutPercent, totalMinutes, h1, h2]
  · simp [travelPercent, totalMinutes, h1, h2]
  · field_simp
    ring

/-- C9 witness: one Fire record with 60 s turnout and 120 s travel —
one and two minutes — whose shares are 100/3 and 200/3. -/
theorem c9_turnout_travel_sum_100_witness :
    turnoutPercent exTT "Fire" = some ((1 : ℚ) / (1 + 2) * 100) ∧
    travelPercent exTT "Fire" = some ((2 : ℚ) / (1 + 2) * 100) ∧
    (1 : ℚ) / (1 + 2) * 100 + (2 : ℚ) / (1 + 2) * 100 = 100 :=
  c9_turnout_travel_sum_100 exTT "Fire" 1 2
    (by norm_num [turnoutMeanMin, meanOpt, seriesVals, groupRows, exTT,
      mkRec, List.filterMap_cons])
    (by norm_num [travelMeanMin, meanOpt, seriesVals, groupRows, exTT,
      mkRec, List.filterMap_cons])
    (by norm_num)

/-! ## C10 — null first-pump attendance -/

/-- Dropping a null entry makes the extracted value list strictly shorter
than the row list. -/
theorem filterMap_length_lt {α β : Type} (g : α → Option β) {l : List α}
    {a : α} (ha : a ∈ l) (hg : g a = none) :
    (l.filterMap g).length < l.length := by
  induction l with
  | nil => cases ha
  | cons x t ih =>
    rcases List.mem_cons.mp ha with rfl | hmem
    · rw [List.filterMap_cons, hg]
      exact Nat.lt_succ_of_le (List.length_filterMap_le g t)
    · cases hgx : g x
      · rw [List.filterMap_cons, hgx]
        exact Nat.lt_succ_of_lt (ih hmem)
      · rw [List.filterMap_cons, hgx]
        simpa using Nat.succ_lt_succ (ih hmem)

/-- C10: with a null first-pump attendance present, the
response-within-6-minutes percentage counts the null row in its
denominator (the full row count) and treats it as missing the 360 s
target, while the median (and the other order statistics) run over only
the non-null values — a strictly smaller subset. -/
theorem c10_null_in_denominator (f : List Record) (r : Record)
    (hr : r ∈ f) (hn : r.firstPump = none) :
    response_within_6min f =
      ((f.countP within6 : ℚ) / ((total_incidents f : ℚ))) * 100 ∧
    within6 r = false ∧
    median_response f = quantileQ (1 / 2) (seriesVals f Record.firstPump) / 60 ∧
    (seriesVals f Record.firstPump).length < total_incidents f := by
  refine ⟨rfl, by simp [within6, hn], rfl, ?_⟩
  exact filterMap_length_lt Record.firstPump hr hn

/-- C10 witness: a two-row table whose first row has a null attendance. -/
theorem c10_null_in_denominator_witness :
    response_within_6min exNullTen =
      ((exNullTen.countP within6 : ℚ) / ((total_incidents exNullTen : ℚ))) *
        100 ∧
    within6 (mkRec "A" "Fire" 1 none none) = false ∧
    median_response exNullTen =
      quantileQ (1 / 2) (seriesVals exNullTen Record.firstPump) / 60 ∧
    (seriesVals exNullTen Record.firstPump).length <
      total_incidents exNullTen :=
  c10_null_in_denominator exNullTen (mkRec "A" "Fire" 1 none none)
    (by decide) (by decide)
